import Mathlib

/-!
Verification development for the compression bot repository
(src/compression_bot/main.py and src/compression_bot/instagram_to_HLS_dropbox.py).

Shallow embedding conventions:
* Python floats that only ever hold exact decimal constants and sizes are
  modelled as rationals (ℚ); Python `int(x)` is truncation toward zero,
  modelled by `truncQ`; Python `//` on ints is `Int.fdiv`.
* `hashlib.md5(url.encode()).hexdigest()` is embedded as a full MD5
  implementation over `Nat` bytes (`md5HexChars`).
* The orchestration paths (Telegram handler, Flask background jobs) are
  embedded as functions from boolean step outcomes to the list of observable
  events they perform (step invocations, ledger marking, notifications,
  cleanup, backoff sleeps), following the source control flow line by line.
* External effects (yt-dlp, ffmpeg, Dropbox, Telegram transport) appear only
  through their success/failure outcome; notification transport is treated as
  succeeding, matching the spec which scopes transport out.
-/

/-- Python `int(x)` for a rational `x`: truncation toward zero.
For a `Rat` in normal form this is `num.tdiv den`. -/
def truncQ (q : ℚ) : ℤ := q.num.tdiv q.den

theorem truncQ_eq_floor (q : ℚ) (h : 0 ≤ q) : truncQ q = ⌊q⌋ := by
  have hn : 0 ≤ q.num := Rat.num_nonneg.mpr h
  rw [truncQ, Int.tdiv_eq_ediv hn (Int.natCast_nonneg q.den), Rat.floor_def]

theorem le_truncQ_of_le (n : ℤ) (q : ℚ) (h0 : 0 ≤ n) (h : (n : ℚ) ≤ q) :
    n ≤ truncQ q := by
  have hq : 0 ≤ q := le_trans (by exact_mod_cast h0) h
  rw [truncQ_eq_floor q hq]
  exact Int.le_floor.mpr h

theorem truncQ_le_of_le (n : ℤ) (q : ℚ) (h0 : 0 ≤ q) (h : q ≤ (n : ℚ)) :
    truncQ q ≤ n := by
  rw [truncQ_eq_floor q h0]
  exact_mod_cast (Int.floor_le q).trans h

/-! ## ContentIdentity: DuplicateTracker.extract_video_id

Source (identical in both files):
    m = re.search(r'/(p|reel)/([A-Za-z0-9_-]+)', url)
    if m: return m.group(2)
    return hashlib.md5(url.encode()).hexdigest()[:12]
-/

/-- Character class `[A-Za-z0-9_-]` of the video-id regex. -/
def isIdChar (c : Char) : Bool :=
  (decide (c ≥ 'A') && decide (c ≤ 'Z')) ||
  (decide (c ≥ 'a') && decide (c ≤ 'z')) ||
  (decide (c ≥ '0') && decide (c ≤ '9')) ||
  c = '_' || c = '-'

/-- `re.search(r'/(p|reel)/([A-Za-z0-9_-]+)', url)`: scan left to right; at
each position try to match `/p/` then `/reel/` followed by at least one id
character; on a match return the maximal id-character run (group 2). -/
def findMarker : List Char → Option (List Char)
  | [] => none
  | c :: rest =>
    if c = '/' then
      match rest with
      | 'p' :: '/' :: t =>
        let r := t.takeWhile isIdChar
        if r.isEmpty then findMarker rest else some r
      | 'r' :: 'e' :: 'e' :: 'l' :: '/' :: t =>
        let r := t.takeWhile isIdChar
        if r.isEmpty then findMarker rest else some r
      | _ => findMarker rest
    else findMarker rest

/-- UTF-8 encoding of one character, as byte values (`url.encode()`). -/
def utf8Bytes (c : Char) : List Nat :=
  let n := c.toNat
  if n < 128 then [n]
  else if n < 2048 then [192 + n / 64, 128 + n % 64]
  else if n < 65536 then [224 + n / 4096, 128 + n / 64 % 64, 128 + n % 64]
  else [240 + n / 262144, 128 + n / 4096 % 64, 128 + n / 64 % 64, 128 + n % 64]

def strBytes (s : String) : List Nat := (s.data.map utf8Bytes).flatten

/-- Little-endian bytes of a 32-bit word. -/
def bytesLE4 (w : Nat) : List Nat :=
  [w % 256, w / 256 % 256, w / 65536 % 256, w / 16777216 % 256]

/-- Little-endian bytes of a 64-bit word. -/
def bytesLE8 (w : Nat) : List Nat :=
  bytesLE4 (w % 4294967296) ++ bytesLE4 (w / 4294967296)

/-- MD5 padding: append `0x80`, zero bytes up to 56 mod 64, then the
original bit length as a 64-bit little-endian word. -/
def padMsg (m : List Nat) : List Nat :=
  let padLen := (56 + 64 - (m.length + 1) % 64) % 64 + 1
  m ++ [128] ++ List.replicate (padLen - 1) 0 ++
    bytesLE8 (m.length * 8 % 18446744073709551616)

/-- MD5 sine-derived round constants. -/
def md5K : List Nat :=
  [3614090360, 3905402710, 606105819, 3250441966, 4118548399, 1200080426, 2821735955, 4249261313,
   1770035416, 2336552879, 4294925233, 2304563134, 1804603682, 4254626195, 2792965006, 1236535329,
   4129170786, 3225465664, 643717713, 3921069994, 3593408605, 38016083, 3634488961, 3889429448,
   568446438, 3275163606, 4107603335, 1163531501, 2850285829, 4243563512, 1735328473, 2368359562,
   4294588738, 2272392833, 1839030562, 4259657740, 2763975236, 1272893353, 4139469664, 3200236656,
   681279174, 3936430074, 3572445317, 76029189, 3654602809, 3873151461, 530742520, 3299628645,
   4096336452, 1126891415, 2878612391, 4237533241, 1700485571, 2399980690, 4293915773, 2240044497,
   1873313359, 4264355552, 2734768916, 1309151649, 4149444226, 3174756917, 718787259, 3951481745]

/-- MD5 per-round left-rotation amounts. -/
def md5S : List Nat :=
  [7, 12, 17, 22, 7, 12, 17, 22, 7, 12, 17, 22, 7, 12, 17, 22,
   5, 9, 14, 20, 5, 9, 14, 20, 5, 9, 14, 20, 5, 9, 14, 20,
   4, 11, 16, 23, 4, 11, 16, 23, 4, 11, 16, 23, 4, 11, 16, 23,
   6, 10, 15, 21, 6, 10, 15, 21, 6, 10, 15, 21, 6, 10, 15, 21]

def rotl32 (x n : Nat) : Nat := ((x <<< n) ||| (x >>> (32 - n))) % 4294967296

structure MD5St where
  a : Nat
  b : Nat
  c : Nat
  d : Nat

def md5Mix (i b c d : Nat) : Nat :=
  if i < 16 then (b &&& c) ||| ((b ^^^ 4294967295) &&& d)
  else if i < 32 then (d &&& b) ||| ((d ^^^ 4294967295) &&& c)
  else if i < 48 then b ^^^ c ^^^ d
  else c ^^^ (b ||| (d ^^^ 4294967295))

def md5MsgIdx (i : Nat) : Nat :=
  if i < 16 then i
  else if i < 32 then (5 * i + 1) % 16
  else if i < 48 then (3 * i + 5) % 16
  else (7 * i) % 16

def md5Round (M : Nat → Nat) (st : MD5St) (i : Nat) : MD5St :=
  let f := (md5Mix i st.b st.c st.d + st.a + md5K.getD i 0 + M (md5MsgIdx i)) % 4294967296
  ⟨st.d, (st.b + rotl32 f (md5S.getD i 0)) % 4294967296, st.b, st.c⟩

/-- Word `i` of a 64-byte block, little-endian. -/
def leWord (block : List Nat) (i : Nat) : Nat :=
  block.getD (4 * i) 0 + block.getD (4 * i + 1) 0 * 256 +
    block.getD (4 * i + 2) 0 * 65536 + block.getD (4 * i + 3) 0 * 16777216

def md5Block (st : MD5St) (block : List Nat) : MD5St :=
  let r := (List.range 64).foldl (md5Round (leWord block)) st
  ⟨(st.a + r.a) % 4294967296, (st.b + r.b) % 4294967296,
   (st.c + r.c) % 4294967296, (st.d + r.d) % 4294967296⟩

def md5Blocks (st : MD5St) : List Nat → MD5St
  | [] => st
  | b :: rest => md5Blocks (md5Block st ((b :: rest).take 64)) ((b :: rest).drop 64)
  termination_by l => l.length
  decreasing_by simp [List.length_drop]; omega

def md5Init : MD5St := ⟨1732584193, 4023233417, 2562383102, 271733878⟩

def md5DigestBytes (s : String) : List Nat :=
  let st := md5Blocks md5Init (padMsg (strBytes s))
  bytesLE4 st.a ++ bytesLE4 st.b ++ bytesLE4 st.c ++ bytesLE4 st.d

def hexChar (n : Nat) : Char :=
  if n < 10 then Char.ofNat (48 + n) else Char.ofNat (87 + n)

def byteHex (b : Nat) : List Char := [hexChar (b / 16 % 16), hexChar (b % 16)]

/-- `hashlib.md5(s.encode()).hexdigest()` as a character list. -/
def md5HexChars (s : String) : List Char := ((md5DigestBytes s).map byteHex).flatten

/-- `DuplicateTracker.extract_video_id` (main.py lines 181-186,
instagram_to_HLS_dropbox.py lines 184-190). -/
def extract_video_id (url : String) : String :=
  match findMarker url.data with
  | some seg => String.mk seg
  | none => String.mk ((md5HexChars url).take 12)

theorem length_join_byteHex (l : List Nat) :
    ((l.map byteHex).flatten).length = 2 * l.length := by
  induction l with
  | nil => simp
  | cons x xs ih => simp [byteHex, ih]; ring

theorem md5DigestBytes_length (s : String) : (md5DigestBytes s).length = 16 := by
  simp [md5DigestBytes, bytesLE4]

theorem md5HexChars_length (s : String) : (md5HexChars s).length = 32 := by
  rw [md5HexChars, length_join_byteHex, md5DigestBytes_length]

/-! ## DedupeLedger: DuplicateTracker

Source (main.py lines 164-193; instagram_to_HLS_dropbox.py lines 156-202 is
structurally identical, with `save` named `save_database`).  `mem` is the
in-memory set `self.set`, `disk` the JSON file content.  The file write may
raise; `save` swallows the exception (`except Exception: pass` in main.py,
a logged warning in the other file) and returns normally. -/

structure Tracker where
  mem : List String
  disk : List String
  deriving DecidableEq

/-- The underlying file write, which can fail. -/
def writeDb (ok : Bool) (mem : List String) : Except String (List String) :=
  if ok then .ok mem else .error "io failure"

/-- `DuplicateTracker.save`: attempt the write, swallow any failure. -/
def saveDb (ok : Bool) (t : Tracker) : Tracker :=
  match writeDb ok t.mem with
  | .ok d => ⟨t.mem, d⟩
  | .error _ => t

/-- `DuplicateTracker.mark_processed`: add to the in-memory set, then save. -/
def mark_processed (ok : Bool) (url : String) (t : Tracker) : Tracker :=
  saveDb ok ⟨t.mem.insert (extract_video_id url), t.disk⟩

/-- `DuplicateTracker.is_duplicate`. -/
def is_duplicate (t : Tracker) (url : String) : Bool :=
  t.mem.contains (extract_video_id url)

/-- `DuplicateTracker.__init__` re-reading the persisted file. -/
def loadTracker (disk : List String) : Tracker := ⟨disk, disk⟩

/-! ## CompressionPlanner

main.py `VideoProcessor.aggressive_compress` (lines 240-326) and
instagram_to_HLS_dropbox.py `VideoProcessor.compress_video` (lines 277-376).
Inputs: original size in MB, duration in seconds, and the container bit rate
in bits per second when ffprobe reports one (`none` = absent or unparsable). -/

inductive Preset
  | medium
  | fast
  | veryfast
  deriving DecidableEq

structure Plan where
  target : ℤ
  crf : ℕ
  preset : Preset
  deriving DecidableEq

/-- main.py lines 255-266: `int(bit_rate) // 1000`, falling back (also when
that quotient is 0, since `if not current_bitrate_kbps`) to
`int(size*8*1024/duration)` when duration is positive, else 2000. -/
def currentKbpsMain (br : Option ℤ) (sizeMb duration : ℚ) : ℤ :=
  let c : Option ℤ :=
    match br with
    | some b => let k := Int.fdiv b 1000; if k = 0 then none else some k
    | none => none
  match c with
  | some k => k
  | none => if 0 < duration then truncQ (sizeMb * 8 * 1024 / duration) else 2000

/-- main.py lines 269-288: tier table, then `max(target_kbps, 150)`. -/
def aggressivePlan (sizeMb duration : ℚ) (br : Option ℤ) : Plan :=
  let c : ℚ := (currentKbpsMain br sizeMb duration : ℚ)
  let p : Plan :=
    if sizeMb > 50 then ⟨truncQ (min (c * (35 / 100)) 1500), 30, .medium⟩
    else if sizeMb > 20 then ⟨truncQ (min (c * (40 / 100)) 2000), 28, .medium⟩
    else if sizeMb > 5 then ⟨truncQ (min (c * (45 / 100)) 1500), 27, .medium⟩
    else ⟨truncQ (min (c * (50 / 100)) 1000), 26, .medium⟩
  { p with target := max p.target 150 }

/-- instagram_to_HLS_dropbox.py lines 291-295: uses `int(bit_rate) // 1000`
whenever ffprobe reports a bit rate, else the estimate with fallback 1000. -/
def currentKbpsDbx (br : Option ℤ) (sizeMb duration : ℚ) : ℤ :=
  match br with
  | some b => Int.fdiv b 1000
  | none => if 0 < duration then truncQ (sizeMb * 8 * 1024 / duration) else 1000

/-- instagram_to_HLS_dropbox.py lines 300-322: tier table, then
`max(target_bitrate, 150)` on the rational value; the integer bitrate
passed to ffmpeg is `int(target_bitrate)`. -/
def compressPlan (sizeMb duration : ℚ) (br : Option ℤ) : Plan :=
  let c : ℚ := (currentKbpsDbx br sizeMb duration : ℚ)
  let raw : ℚ × ℕ × Preset :=
    if sizeMb > 50 then (min (c * (20 / 100)) 600, 34, .medium)
    else if sizeMb > 20 then (min (c * (25 / 100)) 700, 33, .medium)
    else if sizeMb > 5 then (min (c * (30 / 100)) 500, 32, .fast)
    else (min (c * (35 / 100)) 400, 31, .fast)
  ⟨truncQ (max raw.1 150), raw.2.1, raw.2.2⟩

/-- The per-tier fraction of the measured bitrate in aggressive_compress. -/
def fracMain (sizeMb : ℚ) : ℚ :=
  if sizeMb > 50 then 35 / 100
  else if sizeMb > 20 then 40 / 100
  else if sizeMb > 5 then 45 / 100
  else 50 / 100

/-- The per-tier absolute bitrate cap in aggressive_compress. -/
def capMain (sizeMb : ℚ) : ℚ :=
  if sizeMb > 50 then 1500
  else if sizeMb > 20 then 2000
  else if sizeMb > 5 then 1500
  else 1000

/-- The per-tier fraction of the measured bitrate in compress_video. -/
def fracDbx (sizeMb : ℚ) : ℚ :=
  if sizeMb > 50 then 20 / 100
  else if sizeMb > 20 then 25 / 100
  else if sizeMb > 5 then 30 / 100
  else 35 / 100

/-- The per-tier absolute bitrate cap in compress_video. -/
def capDbx (sizeMb : ℚ) : ℚ :=
  if sizeMb > 50 then 600
  else if sizeMb > 20 then 700
  else if sizeMb > 5 then 500
  else 400

theorem aggressivePlan_target_eq (sizeMb duration : ℚ) (br : Option ℤ) :
    (aggressivePlan sizeMb duration br).target =
      max (truncQ (min ((currentKbpsMain br sizeMb duration : ℚ) * fracMain sizeMb)
        (capMain sizeMb))) 150 := by
  unfold aggressivePlan fracMain capMain
  split <;> simp_all <;> split <;> simp_all <;> split <;> simp_all

theorem compressPlan_target_eq (sizeMb duration : ℚ) (br : Option ℤ) :
    (compressPlan sizeMb duration br).target =
      truncQ (max (min ((currentKbpsDbx br sizeMb duration : ℚ) * fracDbx sizeMb)
        (capDbx sizeMb)) 150) := by
  unfold compressPlan fracDbx capDbx
  split <;> simp_all <;> split <;> simp_all <;> split <;> simp_all

/-! ## Encode passes and the size-regression fallback

main.py lines 290-323: one ffmpeg pass from the plan (audio 96k); then, if
the output is strictly larger than the input, one re-encode with
`lower_kbps = max(150, int(target_kbps * 0.6))`, preset veryfast, audio 64k.
instagram_to_HLS_dropbox.py lines 330-363: exactly one pass (audio 128k); a
compression ratio below 60 percent only logs a warning. -/

structure EncodePass where
  bitrate : ℤ
  audioK : ℤ
  preset : Preset
  deriving DecidableEq

def aggressiveCompressPasses (sizeMb duration : ℚ) (br : Option ℤ)
    (compressedMb : ℚ) : List EncodePass :=
  let p := aggressivePlan sizeMb duration br
  let first : EncodePass := ⟨p.target, 96, p.preset⟩
  if compressedMb > sizeMb then
    [first, ⟨max 150 (truncQ ((p.target : ℚ) * (6 / 10))), 64, .veryfast⟩]
  else [first]

def compressVideoPasses (sizeMb duration : ℚ) (br : Option ℤ) : List EncodePass :=
  let p := compressPlan sizeMb duration br
  [⟨p.target, 128, p.preset⟩]

/-- instagram_to_HLS_dropbox.py lines 356-363: the only reaction to a poor
ratio is this warning predicate. -/
def lowCompressionWarning (sizeMb compressedMb : ℚ) : Bool :=
  if sizeMb > 0 then decide ((sizeMb - compressedMb) / sizeMb * 100 < 60) else true

/-! ## PublishPipeline manifest rewrite

main.py `VideoProcessor.upload_hls_folder`, lines 393-421:
    re.sub(r'^[^#\s].*\.ts$', replace_segment_url, content, flags=re.MULTILINE)
where `replace_segment_url` returns `segment_urls[filename]` when the whole
matched line ends in `.ts` and is a key of `segment_urls`, else the line
itself.  With MULTILINE anchors and `.` not crossing line breaks, a match is
exactly a full split-on-newline line, so the rewrite is modelled per line. -/

/-- Python `\s` on the characters that can start a manifest line. -/
def pySpace (c : Char) : Bool :=
  c = ' ' || c = '\t' || c = '\n' || c = '\r' || c = '\x0b' || c = '\x0c'

def endsTs (cs : List Char) : Bool := ['.', 't', 's'].isSuffixOf cs

/-- Whether `^[^#\s].*\.ts$` matches a (newline-free) line, as characters:
one `[^#\s]` character, any run, then the three characters of `.ts`. -/
def tsLineChars : List Char → Bool
  | [] => false
  | c :: cs => !(c = '#') && !(pySpace c) && endsTs (c :: cs) &&
      decide (4 ≤ (c :: cs).length)

/-- Whether `^[^#\s].*\.ts$` matches the (newline-free) line as a whole. -/
def isTsLine (l : String) : Bool := tsLineChars l.data

/-- The `replace_segment_url` callback. -/
def replaceSegmentUrl (segs : List (String × String)) (l : String) : String :=
  if endsTs l.data then
    match segs.lookup l with
    | some u => u
    | none => l
  else l

def rewriteLine (segs : List (String × String)) (l : String) : String :=
  if isTsLine l then replaceSegmentUrl segs l else l

/-- The full playlist rewrite over the manifest text. -/
def fixPlaylist (segs : List (String × String)) (content : String) : String :=
  String.intercalate "\n" ((content.splitOn "\n").map (rewriteLine segs))

/-- Shape of the keys of `segment_urls` as produced by `generate_hls`:
segment files are named `<video_id>_<counter>.ts` where the id starts with a
character from `[A-Za-z0-9_-]`, so a key is at least 4 characters, starts
with an id character and ends in `.ts`. -/
def segKeyChars : List Char → Bool
  | [] => false
  | c :: cs => isIdChar c && endsTs (c :: cs) && decide (4 ≤ (c :: cs).length)

def segKeyOk (n : String) : Bool := segKeyChars n.data

/-- Comment or directive line of an HLS manifest. -/
def isComment (l : String) : Bool := l.data.head? == some '#'

/-! ## JobRunner: the four orchestration paths

Each entry point is embedded as a function from boolean step outcomes
(true = the step returned, false = it raised) to the list of observable
events, written branch by branch from the source control flow:

* `handleMessageCore`  — main.py `InstagramBot.handle_message` (465-509);
* `bgCore`             — main.py `create_flask_app.bg` (529-541);
* `processUrlCore`     — instagram_to_HLS_dropbox.py
  `InstagramBot.process_instagram_url` (473-582) and the structurally
  identical `process_in_thread` (818-915);
* `backgroundProcessCore` — instagram_to_HLS_dropbox.py
  `create_flask_app.background_process` (794-974), the retry loop around
  `process_in_thread` with `time.sleep(retry_count * 2 + 1)` before each
  attempt and a final-error notification after three failures.

`dup` is the value of `is_duplicate(url)`; wrapper functions below tie it to
the real tracker. -/

inductive PipeStep
  | download
  | compress
  | package
  | upload
  deriving DecidableEq

inductive Note
  | progress
  | dup
  | success
  | error
  | finalError
  deriving DecidableEq

inductive Event
  | invoke : PipeStep → Event
  | notify : Note → Event
  | mark : Event
  | cleanup : Event
  | sleep : Nat → Event
  deriving DecidableEq

/-- Subsequence test: the first list occurs in order inside the second. -/
def seqIn : List Event → List Event → Bool
  | [], _ => true
  | _ :: _, [] => false
  | a :: as, b :: bs => if a = b then seqIn as bs else seqIn (a :: as) bs

/-- The backoff delays occurring in an event list, in order. -/
def sleeps (es : List Event) : List Nat :=
  es.filterMap fun e =>
    match e with
    | .sleep n => some n
    | _ => none

def strictInc : List Nat → Bool
  | [] => true
  | [_] => true
  | a :: b :: t => decide (a < b) && strictInc (b :: t)

/-- main.py `InstagramBot.handle_message`: initial reply, then inside
`try`: duplicate check (early return), download, compress, generate_hls,
upload_hls_folder, mark_processed, success edit; `except`: failure edit;
`finally`: cleanup_local. -/
def handleMessageCore (dup dl cp pk up : Bool) : List Event :=
  [.notify .progress] ++
  if dup then [.notify .dup, .cleanup] else
  [.notify .progress, .invoke .download] ++
  if !dl then [.notify .error, .cleanup] else
  [.notify .progress, .invoke .compress] ++
  if !cp then [.notify .error, .cleanup] else
  [.notify .progress, .invoke .package] ++
  if !pk then [.notify .error, .cleanup] else
  [.notify .progress, .invoke .upload] ++
  if !up then [.notify .error, .cleanup] else
  [.mark, .notify .success, .cleanup]

/-- main.py `create_flask_app.bg`: no duplicate check; download, compress,
generate_hls, upload_hls_folder, mark_processed, cleanup_local all inside
`try`; the `except` only logs, so a failing step ends the job with no
further events. -/
def bgCore (dl cp pk up : Bool) : List Event :=
  [.invoke .download] ++
  if !dl then [] else
  [.invoke .compress] ++
  if !cp then [] else
  [.invoke .package] ++
  if !pk then [] else
  [.invoke .upload] ++
  if !up then [] else
  [.mark, .cleanup]

/-- instagram_to_HLS_dropbox.py `process_instagram_url` and
`process_in_thread`: duplicate check (notify and return), processing
message, download, compress, upload_to_dropbox, mark_processed,
cleanup_local_files, success edit; on a step failure: error message then
cleanup. -/
def processUrlCore (dup dl cp up : Bool) : List Event :=
  if dup then [.notify .dup] else
  [.notify .progress, .invoke .download] ++
  if !dl then [.notify .error, .cleanup] else
  [.notify .progress, .invoke .compress] ++
  if !cp then [.notify .error, .cleanup] else
  [.notify .progress, .invoke .upload] ++
  if !up then [.notify .error, .cleanup] else
  [.mark, .cleanup, .notify .success]

/-- An attempt of `background_process` returns normally when the duplicate
path was taken or every step succeeded. -/
def attemptOk (dup dl cp up : Bool) : Bool := dup || (dl && cp && up)

/-- instagram_to_HLS_dropbox.py `background_process`: up to three attempts,
`time.sleep(retry_count * 2 + 1)` (1s, 3s, 5s) before attempts 1, 2, 3, and
after the third failure one best-effort final error notification. -/
def backgroundProcessCore (dup d1 c1 u1 d2 c2 u2 d3 c3 u3 : Bool) : List Event :=
  [.sleep 1] ++ processUrlCore dup d1 c1 u1 ++
  if attemptOk dup d1 c1 u1 then [] else
  [.sleep 3] ++ processUrlCore dup d2 c2 u2 ++
  if attemptOk dup d2 c2 u2 then [] else
  [.sleep 5] ++ processUrlCore dup d3 c3 u3 ++
  if attemptOk dup d3 c3 u3 then [] else [.notify .finalError]

/-! Wrappers tying the cores to the real DedupeLedger state.  `wk` is the
outcome of the ledger file write inside `mark_processed`. -/

def handleMessage (wk : Bool) (t : Tracker) (url : String)
    (dl cp pk up : Bool) : List Event × Tracker :=
  let dup := is_duplicate t url
  (handleMessageCore dup dl cp pk up,
   if !dup && dl && cp && pk && up then mark_processed wk url t else t)

def bg (wk : Bool) (t : Tracker) (url : String)
    (dl cp pk up : Bool) : List Event × Tracker :=
  (bgCore dl cp pk up,
   if dl && cp && pk && up then mark_processed wk url t else t)

def processUrl (wk : Bool) (t : Tracker) (url : String)
    (dl cp up : Bool) : List Event × Tracker :=
  let dup := is_duplicate t url
  (processUrlCore dup dl cp up,
   if !dup && dl && cp && up then mark_processed wk url t else t)

def backgroundProcess (wk : Bool) (t : Tracker) (url : String)
    (d1 c1 u1 d2 c2 u2 d3 c3 u3 : Bool) : List Event × Tracker :=
  let dup := is_duplicate t url
  (backgroundProcessCore dup d1 c1 u1 d2 c2 u2 d3 c3 u3,
   if !dup && ((d1 && c1 && u1) || (d2 && c2 && u2) || (d3 && c3 && u3)) then
     mark_processed wk url t
   else t)

/-- Concrete already-processed submission used in several witnesses. -/
def urlA : String := "https://www.instagram.com/p/abc123/"

def trackerA : Tracker := ⟨["abc123"], ["abc123"]⟩

/-! ## Claim C1 -/

/-- C1: on every orchestration path (main.py handle_message, main.py bg,
dropbox-file process_instagram_url / process_in_thread, and the
background_process retry loop) the identifier is marked processed
(`Event.mark`) exactly when every pipeline step of the job succeeded —
never while some step has not succeeded — at most once per job, and in a
successful job the mark lies after the upload invocation and before the
success notification. -/
theorem C1_mark_only_after_full_pipeline :
    (∀ dup dl cp pk up : Bool,
      (handleMessageCore dup dl cp pk up).count .mark =
        (if !dup && dl && cp && pk && up then 1 else 0) ∧
      seqIn [.invoke .upload, .mark, .notify .success]
        (handleMessageCore dup dl cp pk up) = (!dup && dl && cp && pk && up)) ∧
    (∀ dl cp pk up : Bool,
      (bgCore dl cp pk up).count .mark = (if dl && cp && pk && up then 1 else 0) ∧
      seqIn [.invoke .upload, .mark] (bgCore dl cp pk up) = (dl && cp && pk && up)) ∧
    (∀ dup dl cp up : Bool,
      (processUrlCore dup dl cp up).count .mark =
        (if !dup && dl && cp && up then 1 else 0) ∧
      seqIn [.invoke .upload, .mark, .notify .success]
        (processUrlCore dup dl cp up) = (!dup && dl && cp && up)) ∧
    (∀ dup d1 c1 u1 d2 c2 u2 d3 c3 u3 : Bool,
      (backgroundProcessCore dup d1 c1 u1 d2 c2 u2 d3 c3 u3).count .mark =
        (if !dup && ((d1 && c1 && u1) || (d2 && c2 && u2) || (d3 && c3 && u3))
         then 1 else 0) ∧
      seqIn [.invoke .upload, .mark, .notify .success]
        (backgroundProcessCore dup d1 c1 u1 d2 c2 u2 d3 c3 u3) =
        (!dup && ((d1 && c1 && u1) || (d2 && c2 && u2) || (d3 && c3 && u3)))) :=
  ⟨by decide, by decide, by decide, by decide⟩

/-! ## Claim C2 -/

/-- C2 counterexample: the HTTP endpoint of main.py (`create_flask_app.bg`)
does not consult the ledger: for a URL whose identifier is already recorded
it still invokes download (and every other step) and sends no duplicate
notification, contradicting the claim that every entry point checks the
ledger and terminates without work on a duplicate. -/
theorem C2_counterexample :
    is_duplicate trackerA urlA = true ∧
    Event.invoke .download ∈ (bg true trackerA urlA true true true true).1 ∧
    Event.notify .dup ∉ (bg true trackerA urlA true true true true).1 ∧
    Event.invoke .upload ∈ (bg true trackerA urlA true true true true).1 := by
  refine ⟨by decide, by decide, by decide, by decide⟩

/-- C2 amended: the Telegram handler of main.py, the Telegram path of the
dropbox file, and the HTTP background_process of the dropbox file do check
`is_duplicate` before any work and, on a duplicate, notify and terminate
without invoking any pipeline step and without touching the ledger; the
HTTP `bg` path of main.py performs no such check (see the counterexample). -/
theorem C2_duplicate_short_circuit (t : Tracker) (url : String)
    (h : is_duplicate t url = true)
    (wk dl cp pk up d2 c2 u2 d3 c3 u3 : Bool) :
    ((handleMessage wk t url dl cp pk up).1 =
        [.notify .progress, .notify .dup, .cleanup] ∧
      (handleMessage wk t url dl cp pk up).2 = t) ∧
    ((processUrl wk t url dl cp up).1 = [.notify .dup] ∧
      (processUrl wk t url dl cp up).2 = t) ∧
    ((backgroundProcess wk t url dl cp up d2 c2 u2 d3 c3 u3).1 =
        [.sleep 1, .notify .dup] ∧
      (backgroundProcess wk t url dl cp up d2 c2 u2 d3 c3 u3).2 = t) := by
  simp [handleMessage, processUrl, backgroundProcess, h,
    handleMessageCore, processUrlCore, backgroundProcessCore, attemptOk]

theorem C2_duplicate_short_circuit_witness :
    is_duplicate trackerA urlA = true ∧
    (processUrl true trackerA urlA true true true).1 = [.notify .dup] :=
  ⟨by decide,
   ((C2_duplicate_short_circuit trackerA urlA (by decide)
      true true true true true true true true true true true).2.1).1⟩

/-! ## Claim C3 -/

/-- C3 counterexample: in main.py `handle_message` a job whose download step
fails terminates after a single attempt with a failure notification — no
retry, no backoff — contradicting the claim that every failing job is
retried up to 3 attempts. -/
theorem C3_counterexample :
    (handleMessageCore false false true true true).count (.invoke .download) = 1 ∧
    Event.notify .error ∈ handleMessageCore false false true true true ∧
    (handleMessageCore false false true true true).count .mark = 0 ∧
    sleeps (handleMessageCore false false true true true) = [] := by
  refine ⟨by decide, by decide, by decide, by decide⟩

/-- C3 amended: whole-job retry exists only in the dropbox-file HTTP
`background_process`: there a job is attempted at most 3 times with strictly
increasing backoff (1s, 3s, 5s before attempts 1, 2, 3); if attempts 1 and 2
fail and attempt 3 succeeds the job completes with a success notification
and is marked exactly once; after 3 failed attempts exactly one best-effort
final failure notification is sent and nothing is marked.  The Telegram
handler of main.py runs a single attempt and sleeps never. -/
theorem C3_retry_only_in_background_process :
    (∀ d1 c1 u1 d2 c2 u2 : Bool,
      (d1 && c1 && u1) = false → (d2 && c2 && u2) = false →
        sleeps (backgroundProcessCore false d1 c1 u1 d2 c2 u2 true true true) =
            [1, 3, 5] ∧
          strictInc (sleeps
            (backgroundProcessCore false d1 c1 u1 d2 c2 u2 true true true)) = true ∧
          (backgroundProcessCore false d1 c1 u1 d2 c2 u2 true true true).count
            .mark = 1 ∧
          (backgroundProcessCore false d1 c1 u1 d2 c2 u2 true true true).count
            (.notify .success) = 1 ∧
          (backgroundProcessCore false d1 c1 u1 d2 c2 u2 true true true).count
            (.invoke .download) = 3) ∧
    (∀ d1 c1 u1 d2 c2 u2 d3 c3 u3 : Bool,
      (d1 && c1 && u1) = false → (d2 && c2 && u2) = false →
        (d3 && c3 && u3) = false →
          (backgroundProcessCore false d1 c1 u1 d2 c2 u2 d3 c3 u3).count
            (.notify .finalError) = 1 ∧
          (backgroundProcessCore false d1 c1 u1 d2 c2 u2 d3 c3 u3).count
            .mark = 0) ∧
    (∀ dl cp pk up : Bool,
      (handleMessageCore false dl cp pk up).count (.invoke .download) ≤ 1 ∧
        sleeps (handleMessageCore false dl cp pk up) = []) :=
  ⟨by decide, by decide, by decide⟩

theorem C3_retry_only_in_background_process_witness :
    (sleeps (backgroundProcessCore false false true true false true true true true true) =
        [1, 3, 5] ∧
      (backgroundProcessCore false false true true false true true true true true).count
        .mark = 1) ∧
    (backgroundProcessCore false false true true false true true false true true).count
      (.notify .finalError) = 1 := by
  have h1 := C3_retry_only_in_background_process.1 false true true false true true
    (by decide) (by decide)
  have h2 := C3_retry_only_in_background_process.2.1 false true true false true true
    false true true (by decide) (by decide) (by decide)
  exact ⟨⟨h1.1, h1.2.2.1⟩, h2.1⟩

/-! ## Claim C4 -/

/-- C4 counterexample: in main.py `create_flask_app.bg` a job that downloads
successfully and then fails at compression ends with no cleanup event: the
`except` branch only logs, so the downloaded file survives the job,
contradicting the claim that every execution path deletes the job's local
files before terminating. -/
theorem C4_counterexample :
    Event.invoke .download ∈ bgCore true false true true ∧
    Event.cleanup ∉ bgCore true false true true := by
  refine ⟨by decide, by decide⟩

/-- C4 amended: main.py `handle_message` cleans up exactly once on every
path (its `finally` block); both dropbox-file paths clean up exactly once in
every attempt that does any work (and the duplicate path does no work); but
main.py `bg` cleans up only when every step succeeded — on any failing path
it performs no cleanup. -/
theorem C4_cleanup_except_bg_failure :
    (∀ dup dl cp pk up : Bool,
      (handleMessageCore dup dl cp pk up).count .cleanup = 1) ∧
    (∀ dup dl cp up : Bool,
      (processUrlCore dup dl cp up).count .cleanup =
        (processUrlCore dup dl cp up).count (.invoke .download)) ∧
    (∀ dup d1 c1 u1 d2 c2 u2 d3 c3 u3 : Bool,
      (backgroundProcessCore dup d1 c1 u1 d2 c2 u2 d3 c3 u3).count .cleanup =
        (backgroundProcessCore dup d1 c1 u1 d2 c2 u2 d3 c3 u3).count
          (.invoke .download)) ∧
    (∀ dl cp pk up : Bool,
      (bgCore dl cp pk up).count .cleanup =
        (if dl && cp && pk && up then 1 else 0)) :=
  ⟨by decide, by decide, by decide, by decide⟩

/-! ## Claims C5, C6, C7 -/

theorem truncQ_intCast (n : ℤ) : truncQ ((n : ℚ)) = n := by
  simp [truncQ, Rat.intCast_num, Rat.intCast_den]

theorem aggressivePlan_target_ge (sizeMb duration : ℚ) (br : Option ℤ) :
    150 ≤ (aggressivePlan sizeMb duration br).target := by
  rw [aggressivePlan_target_eq]
  exact le_max_right _ _

theorem aggressivePlan_preset_medium (sizeMb duration : ℚ) (br : Option ℤ) :
    (aggressivePlan sizeMb duration br).preset = .medium := by
  unfold aggressivePlan
  split_ifs <;> rfl

/-- C7: for every input size, duration and measured bit rate (present or
absent), both planners produce a target bitrate of at least 150 kbps. -/
theorem C7_target_bitrate_floor : ∀ (sizeMb duration : ℚ) (br : Option ℤ),
    150 ≤ (aggressivePlan sizeMb duration br).target ∧
    150 ≤ (compressPlan sizeMb duration br).target := by
  intro s d br
  refine ⟨aggressivePlan_target_ge s d br, ?_⟩
  rw [compressPlan_target_eq]
  refine le_truncQ_of_le 150 _ (by norm_num) ?_
  push_cast
  exact le_max_right _ _

/-- C5 amended: in main.py `aggressive_compress` the fallback re-encode runs
exactly once and only when the first output is strictly larger than the
input (equality does not trigger it); its bitrate is
`max(150, int(0.6 * target))` with the faster veryfast preset, and is at
most — not always strictly below — the first-pass target (they coincide
when the target is the 150 floor); the fallback is itself not re-verified
(the pass list never exceeds length 2).  In instagram_to_HLS_dropbox.py
`compress_video` there is no fallback at all: every run is a single pass. -/
theorem C5_fallback_only_on_strict_increase :
    ∀ (sizeMb duration compressedMb : ℚ) (br : Option ℤ),
      aggressiveCompressPasses sizeMb duration br compressedMb =
        (if compressedMb > sizeMb then
          [⟨(aggressivePlan sizeMb duration br).target, 96,
              (aggressivePlan sizeMb duration br).preset⟩,
           ⟨max 150 (truncQ (((aggressivePlan sizeMb duration br).target : ℚ) * (6 / 10))),
              64, .veryfast⟩]
        else
          [⟨(aggressivePlan sizeMb duration br).target, 96,
              (aggressivePlan sizeMb duration br).preset⟩]) ∧
      max 150 (truncQ (((aggressivePlan sizeMb duration br).target : ℚ) * (6 / 10))) ≤
        (aggressivePlan sizeMb duration br).target ∧
      150 ≤ max 150 (truncQ (((aggressivePlan sizeMb duration br).target : ℚ) * (6 / 10))) ∧
      (compressVideoPasses sizeMb duration br).length = 1 := by
  intro s d c br
  have ht := aggressivePlan_target_ge s d br
  have htq : (0 : ℚ) ≤ ((aggressivePlan s d br).target : ℚ) := by
    exact_mod_cast le_trans (by norm_num) ht
  refine ⟨?_, ?_, le_max_left _ _, rfl⟩
  · unfold aggressiveCompressPasses
    split_ifs <;> rfl
  · refine max_le (by linarith) ?_
    refine truncQ_le_of_le _ _ (by nlinarith) (by nlinarith)

theorem currentKbpsMain_estimate : currentKbpsMain none 10 10 = 8192 := by
  simp only [currentKbpsMain]
  rw [if_pos (by norm_num : (0:ℚ) < 10)]
  rw [show ((10:ℚ) * 8 * 1024 / 10) = ((8192 : ℤ) : ℚ) by norm_num]
  exact truncQ_intCast 8192

theorem aggressivePlan_ten : (aggressivePlan 10 10 none).target = 1500 := by
  rw [aggressivePlan_target_eq, currentKbpsMain_estimate]
  rw [show fracMain 10 = 45 / 100 by norm_num [fracMain]]
  rw [show capMain 10 = 1500 by norm_num [capMain]]
  rw [min_eq_right (by push_cast; norm_num)]
  rw [show (1500 : ℚ) = ((1500 : ℤ) : ℚ) by norm_num, truncQ_intCast]
  norm_num

theorem currentKbpsMain_small : currentKbpsMain (some 300000) 2 10 = 300 := by
  have hk : Int.fdiv 300000 1000 = 300 := by decide
  simp only [currentKbpsMain, hk]
  norm_num

theorem aggressivePlan_small : (aggressivePlan 2 10 (some 300000)).target = 150 := by
  rw [aggressivePlan_target_eq, currentKbpsMain_small]
  rw [show fracMain 2 = 50 / 100 by norm_num [fracMain]]
  rw [show capMain 2 = 1000 by norm_num [capMain]]
  rw [show (((300 : ℤ) : ℚ) * (50 / 100)) = ((150 : ℤ) : ℚ) by push_cast; norm_num]
  rw [min_eq_left (by norm_num), truncQ_intCast]
  norm_num

/-- C5 counterexample: with a 10 MB input and a 10 MB output (output equal
to input, where the claim requires a fallback) only one pass runs; and for
a 2 MB input whose plan hits the 150 kbps floor, a strict size increase
triggers a fallback whose bitrate is 150 — equal to, not strictly lower
than, the first-pass target. -/
theorem C5_counterexample :
    aggressiveCompressPasses 10 10 none 10 = [⟨1500, 96, .medium⟩] ∧
    aggressiveCompressPasses 2 10 (some 300000) 3 =
      [⟨150, 96, .medium⟩, ⟨150, 64, .veryfast⟩] := by
  constructor
  · unfold aggressiveCompressPasses
    rw [if_neg (by norm_num)]
    rw [aggressivePlan_ten, aggressivePlan_preset_medium]
  · unfold aggressiveCompressPasses
    rw [if_pos (by norm_num : (3:ℚ) > 2)]
    rw [aggressivePlan_small, aggressivePlan_preset_medium]
    rw [show (((150 : ℤ) : ℚ) * (6 / 10)) = ((90 : ℤ) : ℚ) by push_cast; norm_num]
    rw [truncQ_intCast]
    norm_num

/-- C6 amended: in both planners the fraction of the measured bitrate is
monotonically non-increasing as the input size grows, but the absolute
bitrate caps are not monotone (main.py: 1000 / 1500 / 2000 / 1500 kbps and
dropbox file: 400 / 500 / 700 / 600 kbps as the size tier grows), so a
larger-tier input can receive a strictly higher cap and a strictly higher
target (see the counterexample). -/
theorem C6_fraction_monotone (s1 s2 : ℚ) (h : s1 ≤ s2) :
    fracMain s2 ≤ fracMain s1 ∧ fracDbx s2 ≤ fracDbx s1 := by
  unfold fracMain fracDbx
  constructor <;> split_ifs <;> try norm_num
  all_goals linarith

theorem C6_fraction_monotone_witness :
    (4 : ℚ) ≤ 6 ∧ fracMain 6 ≤ fracMain 4 ∧ fracDbx 6 ≤ fracDbx 4 :=
  ⟨by norm_num, (C6_fraction_monotone 4 6 (by norm_num)).1,
    (C6_fraction_monotone 4 6 (by norm_num)).2⟩

theorem currentKbpsMain_large : currentKbpsMain (some 10000000) 6 10 = 10000 := by
  have hk : Int.fdiv 10000000 1000 = 10000 := by decide
  simp only [currentKbpsMain, hk]
  norm_num

theorem currentKbpsMain_large4 : currentKbpsMain (some 10000000) 4 10 = 10000 := by
  have hk : Int.fdiv 10000000 1000 = 10000 := by decide
  simp only [currentKbpsMain, hk]
  norm_num

theorem aggressivePlan_six : (aggressivePlan 6 10 (some 10000000)).target = 1500 := by
  rw [aggressivePlan_target_eq, currentKbpsMain_large]
  rw [show fracMain 6 = 45 / 100 by norm_num [fracMain]]
  rw [show capMain 6 = 1500 by norm_num [capMain]]
  rw [min_eq_right (by push_cast; norm_num)]
  rw [show (1500 : ℚ) = ((1500 : ℤ) : ℚ) by norm_num, truncQ_intCast]
  norm_num

theorem aggressivePlan_four : (aggressivePlan 4 10 (some 10000000)).target = 1000 := by
  rw [aggressivePlan_target_eq, currentKbpsMain_large4]
  rw [show fracMain 4 = 50 / 100 by norm_num [fracMain]]
  rw [show capMain 4 = 1000 by norm_num [capMain]]
  rw [min_eq_right (by push_cast; norm_num)]
  rw [show (1000 : ℚ) = ((1000 : ℤ) : ℚ) by norm_num, truncQ_intCast]
  norm_num

/-- C6 counterexample: a 6 MB input (tier greater than 5 MB) receives cap
1500 while a 4 MB input (bottom tier) receives cap 1000, in both the table
and the actual planner output for the same measured bitrate — the cap and
the resulting target increase with the tier, contradicting the claim. -/
theorem C6_counterexample :
    (4 : ℚ) ≤ 6 ∧
    ¬ capMain 6 ≤ capMain 4 ∧
    ¬ capDbx 6 ≤ capDbx 4 ∧
    ¬ (aggressivePlan 6 10 (some 10000000)).target ≤
        (aggressivePlan 4 10 (some 10000000)).target := by
  refine ⟨by norm_num, by norm_num [capMain], by norm_num [capDbx], ?_⟩
  rw [aggressivePlan_six, aggressivePlan_four]
  norm_num

/-! ## Claim C8 -/

def urlReel : String := "https://www.instagram.com/reel/XYZ-7_9/?utm=1"

def urlPlain : String := "https://example.com/watch?v=123"

/-- C8: `extract_video_id` is a total Lean function (it never fails): when
the `/p/` or `/reel/` marker pattern matches it returns the matched path
segment; otherwise it returns the MD5 hex digest of the full URL truncated
to exactly 12 characters; and it is deterministic.  The two closing
conjuncts evaluate it on concrete post and reel URLs. -/
theorem C8_identify_total :
    (∀ url : String,
      (∀ seg, findMarker url.data = some seg →
        extract_video_id url = String.mk seg) ∧
      (findMarker url.data = none →
        extract_video_id url = String.mk ((md5HexChars url).take 12) ∧
        (extract_video_id url).length = 12) ∧
      (∀ url2 : String, url = url2 →
        extract_video_id url = extract_video_id url2)) ∧
    extract_video_id urlA = "abc123" ∧
    extract_video_id urlReel = "XYZ-7_9" := by
  refine ⟨?_, by decide, by decide⟩
  intro url
  refine ⟨?_, ?_, ?_⟩
  · intro seg h
    unfold extract_video_id
    rw [h]
  · intro h
    unfold extract_video_id
    rw [h]
    refine ⟨rfl, ?_⟩
    show ((md5HexChars url).take 12).length = 12
    rw [List.length_take, md5HexChars_length]
    norm_num
  · intro url2 h
    rw [h]

theorem C8_identify_total_witness :
    findMarker urlPlain.data = none ∧ (extract_video_id urlPlain).length = 12 :=
  ⟨by decide, ((C8_identify_total.1 urlPlain).2.1 (by decide)).2⟩

/-! ## Claim C9 -/

theorem isIdChar_not_special (c : Char) (h : isIdChar c = true) :
    pySpace c = false ∧ ¬ c = '#' := by
  constructor
  · cases hps : pySpace c
    · rfl
    · exfalso
      simp only [pySpace, Bool.or_eq_true, decide_eq_true_eq] at hps
      rcases hps with ((((h1 | h2) | h3) | h4) | h5) | h6 <;>
        subst_vars <;> exact absurd h (by decide)
  · intro hc
    subst hc
    exact absurd h (by decide)

theorem endsTs_of_segKey (cs : List Char) (h : segKeyChars cs = true) :
    endsTs cs = true := by
  cases cs with
  | nil => exact absurd h (by decide)
  | cons c rest =>
    simp only [segKeyChars, Bool.and_eq_true] at h
    exact h.1.2

theorem tsLine_of_segKey (cs : List Char) (h : segKeyChars cs = true) :
    tsLineChars cs = true := by
  cases cs with
  | nil => exact absurd h (by decide)
  | cons c rest =>
    simp only [segKeyChars, Bool.and_eq_true] at h
    obtain ⟨⟨hid, hts⟩, hlen⟩ := h
    have hns := isIdChar_not_special c hid
    simp only [tsLineChars, Bool.and_eq_true, Bool.not_eq_true']
    refine ⟨⟨⟨?_, hns.1⟩, hts⟩, hlen⟩
    simpa using hns.2

theorem lookup_mem {segs : List (String × String)} {l u : String}
    (h : segs.lookup l = some u) : ∃ p, p ∈ segs ∧ p.1 = l := by
  induction segs with
  | nil => exact absurd h (by simp [List.lookup])
  | cons p ps ih =>
    obtain ⟨k, v⟩ := p
    rw [List.lookup] at h
    split at h
    · next heq =>
      refine ⟨(k, v), List.mem_cons_self _ _, ?_⟩
      have : l = k := by simpa using heq
      simp [this]
    · obtain ⟨q, hq, hq1⟩ := ih h
      exact ⟨q, List.mem_cons_of_mem _ hq, hq1⟩

/-- C9: under the naming scheme of `generate_hls` (every known segment name
is at least 4 characters, starts with an id character and ends in `.ts`),
the playlist rewrite of `upload_hls_folder` replaces every line that equals
a known segment name by that segment's resolved public link, and leaves
every other line — in particular every comment/directive line and every
line matching no known segment — unchanged. -/
theorem C9_manifest_rewrite (segs : List (String × String))
    (hk : ∀ p ∈ segs, segKeyOk p.1 = true) (l : String) :
    (∀ u, segs.lookup l = some u → rewriteLine segs l = u) ∧
    (segs.lookup l = none → rewriteLine segs l = l) ∧
    (isComment l = true → rewriteLine segs l = l) := by
  refine ⟨?_, ?_, ?_⟩
  · intro u h
    obtain ⟨p, hps, hp1⟩ := lookup_mem h
    have hkey : segKeyOk l = true := by
      have := hk p hps
      rwa [hp1] at this
    have hts : isTsLine l = true := tsLine_of_segKey l.data hkey
    have hends : endsTs l.data = true := endsTs_of_segKey l.data hkey
    unfold rewriteLine
    rw [hts]
    unfold replaceSegmentUrl
    rw [hends]
    simp [h]
  · intro h
    unfold rewriteLine
    cases hts : isTsLine l
    · simp
    · unfold replaceSegmentUrl
      cases hends : endsTs l.data
      · simp
      · simp [h]
  · intro h
    have hc : ∃ cs, l.data = '#' :: cs := by
      simp only [isComment, beq_iff_eq] at h
      cases hd : l.data with
      | nil => rw [hd] at h; exact absurd h (by simp)
      | cons c cs =>
        rw [hd] at h
        simp only [List.head?_cons, Option.some.injEq] at h
        exact ⟨cs, by rw [h]⟩
    obtain ⟨cs, hcs⟩ := hc
    have hts : isTsLine l = false := by
      unfold isTsLine
      rw [hcs]
      simp [tsLineChars]
    unfold rewriteLine
    rw [hts]
    simp

def lineSeg : String := "abc123_00000.ts"

def urlSeg : String := "https://dl.example.com/s/abc123_00000.ts?raw=1"

def lineInf : String := "#EXTINF:2.000000,"

def segsA : List (String × String) := [(lineSeg, urlSeg)]

theorem C9_manifest_rewrite_witness :
    rewriteLine segsA lineSeg = urlSeg ∧ rewriteLine segsA lineInf = lineInf :=
  ⟨(C9_manifest_rewrite segsA (by decide) lineSeg).1 urlSeg (by decide),
   (C9_manifest_rewrite segsA (by decide) lineInf).2.2 (by decide)⟩

/-! ## Claim C10 -/

/-- C10: `mark_processed` and the ledger save never raise: when the file
write fails the exception is swallowed (`saveDb false t = t` is a normal
return), `mark_processed` still completes with the identifier added to the
in-memory set only, the on-disk ledger is left untouched (diverging from
memory), and a tracker reloaded from that disk no longer contains the
identifier; a successful save persists the memory set. -/
theorem C10_save_failure_swallowed :
    ∀ (t : Tracker) (url : String),
      saveDb false t = t ∧
      (mark_processed false url t).mem = t.mem.insert (extract_video_id url) ∧
      (mark_processed false url t).disk = t.disk ∧
      extract_video_id url ∈ (mark_processed false url t).mem ∧
      (extract_video_id url ∉ t.disk →
        extract_video_id url ∉ (loadTracker (mark_processed false url t).disk).mem) ∧
      (saveDb true t).disk = t.mem := by
  intro t url
  refine ⟨rfl, rfl, rfl, ?_, ?_, rfl⟩
  · exact List.mem_insert_self _ _
  · intro h
    exact h

theorem C10_save_failure_swallowed_witness :
    extract_video_id urlA ∉ (⟨[], []⟩ : Tracker).disk ∧
    extract_video_id urlA ∉
      (loadTracker (mark_processed false urlA ⟨[], []⟩).disk).mem :=
  ⟨by decide, (C10_save_failure_swallowed ⟨[], []⟩ urlA).2.2.2.2.1 (by decide)⟩
